import Mathlib

/-!
# Verification of the `HTTPSSocket` polling channel

A shallow embedding of the `HTTPSSocket` class from
`src/app/src/recoil/selectors.ts`: a resilient duplex channel that emulates
a persistent socket over HTTP polling.  JavaScript state is modelled as an
explicit `Channel` record; each completion callback of the source (the poll
fetch in `gather`, the push fetch in `send`, the per-message ack fetches in
`execute`) becomes a pure step function from channel state to channel state
plus the list of handler invocations it performs.  A thrown JavaScript
exception is modelled with `Except`, and a promise rejection that no
`.catch` handles is recorded in an `uncaught` flag.
-/

/-- The `WebSocket` ready-state constants used by the source
(`WebSocket.CONNECTING`, `WebSocket.OPEN`, `WebSocket.CLOSED`);
`CLOSING` is never used by `HTTPSSocket`. -/
inductive ReadyState where
  | CONNECTING
  | OPEN
  | CLOSED
deriving DecidableEq, Repr

/-- JSON values, as produced by `response.json()` and consumed by
`JSON.stringify`. -/
inductive Json where
  | null
  | bool (b : Bool)
  | num (n : Int)
  | str (s : String)
  | arr (elems : List Json)
  | obj (fields : List (String × Json))

mutual

/-- Model of `JSON.stringify` on the `Json` values above. -/
def Json.stringify : Json → String
  | .null => "null"
  | .bool true => "true"
  | .bool false => "false"
  | .num n => toString n
  | .str s => "\"" ++ s ++ "\""
  | .arr xs => "[" ++ Json.stringifyList xs ++ "]"
  | .obj fs => "\x7b" ++ Json.stringifyFields fs ++ "\x7d"

/-- Comma-separated serialization of a JSON array body. -/
def Json.stringifyList : List Json → String
  | [] => ""
  | [x] => Json.stringify x
  | x :: y :: xs => Json.stringify x ++ "," ++ Json.stringifyList (y :: xs)

/-- Comma-separated serialization of a JSON object body. -/
def Json.stringifyFields : List (String × Json) → String
  | [] => ""
  | [(k, v)] => "\"" ++ k ++ "\":" ++ Json.stringify v
  | (k, v) :: f :: fs =>
      "\"" ++ k ++ "\":" ++ Json.stringify v ++ "," ++ Json.stringifyFields (f :: fs)

end

/-- The argument passed to a `"message"` handler: the source wraps the
received body as `\x7b data: JSON.stringify(data) \x7d` so it looks like a raw
socket message event. -/
structure MessageEvent where
  data : String
deriving DecidableEq, Repr

/-- One invocation of a registered handler.  Handlers are identified by
numbers; `openEv h` is handler `h` of kind `"open"` invoked with `null`,
`messageEv h m` is handler `h` of kind `"message"` invoked with the wrapped
event `m`, `closeEv h` is handler `h` of kind `"close"` invoked with
`null`. -/
inductive Event where
  | openEv (h : Nat)
  | messageEv (h : Nat) (m : MessageEvent)
  | closeEv (h : Nat)
deriving DecidableEq, Repr

/-- The event kind a fired `Event` belongs to. -/
def Event.kind : Event → String
  | .openEv _ => "open"
  | .messageEv _ _ => "message"
  | .closeEv _ => "close"

/-- The handler a fired `Event` invoked. -/
def Event.handler : Event → Nat
  | .openEv h => h
  | .messageEv h _ => h
  | .closeEv h => h

/-- State of one `HTTPSSocket` instance.  `events` is the
event-kind → handler-set table (a JS object holding JS `Set`s: a missing
key is `none`, and each set is a duplicate-free insertion-ordered list).
`interval` is the id of the timer handle currently stored in
`this.interval`; `liveTimers` is the set of timers armed by `setInterval`
and not yet cancelled by `clearInterval`, each with the period it was
armed at; `nextTimer` supplies fresh timer ids. -/
structure Channel where
  location : String
  events : List (String × List Nat)
  readyState : ReadyState
  openTimeout : Nat
  timeout : Nat
  interval : Nat
  liveTimers : List (Nat × Nat)
  nextTimer : Nat
deriving DecidableEq, Repr

/-- `new HTTPSSocket(location)`: field initializers set
`readyState = CONNECTING`, `openTimeout = 2000`, `timeout = 2000`, and an
empty handler table; `connect()` issues the first `gather` fetch and arms
the recurring timer at `this.timeout`. -/
def Channel.init (location : String) : Channel :=
  { location := location
    events := []
    readyState := ReadyState.CONNECTING
    openTimeout := 2000
    timeout := 2000
    interval := 0
    liveTimers := [(0, 2000)]
    nextTimer := 1 }

/-- Replace the handler set stored under key `k` in the event table. -/
def updateEvents (es : List (String × List Nat)) (k : String) (hs : List Nat) :
    List (String × List Nat) :=
  es.map fun p => if p.1 = k then (k, hs) else p

/-- `addEventListener(eventType, handler)`: create the `Set` if missing,
then `Set.add` (a no-op when the handler is already present). -/
def Channel.addEventListener (c : Channel) (k : String) (h : Nat) : Channel :=
  match c.events.lookup k with
  | none => { c with events := c.events ++ [(k, [h])] }
  | some hs =>
      { c with events := updateEvents c.events k (if h ∈ hs then hs else hs ++ [h]) }

/-- `removeEventListener(eventType, handler)`:
`this.events[eventType].delete(handler)`.  When no handler was ever
registered under `eventType` the lookup yields `undefined` and the
`.delete` call throws a `TypeError`, modelled as `Except.error`. -/
def Channel.removeEventListener (c : Channel) (k : String) (h : Nat) :
    Except Unit Channel :=
  match c.events.lookup k with
  | none => Except.error ()
  | some hs => Except.ok { c with events := updateEvents c.events k (hs.erase h) }

/-- The `clearInterval(this.interval)` / `setInterval(..., period)` /
`this.interval = ...` sequence: cancel the current timer, arm a fresh one
at `period`, and store its handle. -/
def Channel.rearm (c : Channel) (period : Nat) : Channel :=
  { c with
    liveTimers := (c.liveTimers.filter fun t => t.1 ≠ c.interval) ++ [(c.nextTimer, period)]
    interval := c.nextTimer
    nextTimer := c.nextTimer + 1 }

/-- Result of the synchronous part of `execute(messages)`: the updated
channel, the handler invocations performed, and the bodies of the
`&mode=pull` ack fetches issued (one per message, in batch order). -/
structure ExecOut where
  chan : Channel
  fired : List Event
  pending : List Json

/-- `execute(messages)`.  If `readyState` is `CLOSED` or `CONNECTING` it
runs `this.events.open.forEach(h => h(null))` — a `TypeError` when the
`"open"` key is missing (`Except.error`, thrown before any state
mutation) — then resets `timeout` to `openTimeout`, cancels and rearms the
timer, and finally sets `readyState = OPEN` and issues one
`&mode=pull` fetch per message. -/
def Channel.execute (c : Channel) (messages : List Json) : Except Unit ExecOut :=
  if c.readyState = ReadyState.CLOSED ∨ c.readyState = ReadyState.CONNECTING then
    match c.events.lookup "open" with
    | none => Except.error ()
    | some openHs =>
        let c1 := { c.rearm c.openTimeout with
                      timeout := c.openTimeout, readyState := ReadyState.OPEN }
        Except.ok ⟨c1, openHs.map Event.openEv, messages⟩
  else
    Except.ok ⟨{ c with readyState := ReadyState.OPEN }, [], messages⟩

/-- Outcome of one completed fetch round trip of `gather` or `send`:
the updated channel, the handler invocations, the ack fetches issued, and
whether an error escaped every handler (an unhandled promise rejection). -/
structure StepOut where
  chan : Channel
  fired : List Event
  pending : List Json
  uncaught : Bool

/-- The `.catch` branch of `gather`: fire `"close"` handlers when the state
is `OPEN` and a `"close"` set exists, set `readyState = CLOSED`, double
`timeout` capped at 5000, and rearm the timer at the new period. -/
def Channel.gatherFail (c : Channel) : StepOut :=
  let fired :=
    if c.readyState = ReadyState.OPEN then
      match c.events.lookup "close" with
      | some hs => hs.map Event.closeEv
      | none => []
    else []
  let t := min (c.timeout * 2) 5000
  ⟨{ c.rearm t with readyState := ReadyState.CLOSED, timeout := t }, fired, [], false⟩

/-- How the poll's `fetch(this.location)` round trip resolved:
`success messages` when the fetch and `response.json()` both succeeded and
the body destructured to a `messages` batch; `failure` on a network error,
non-2xx response, or malformed body. -/
inductive GatherResult where
  | success (messages : List Json)
  | failure

/-- Completion of one `gather` poll cycle: on success run
`execute(messages)`, with any exception it throws handled by the same
`.catch` as a transport failure. -/
def Channel.gather (c : Channel) (r : GatherResult) : StepOut :=
  match r with
  | GatherResult.success ms =>
      match c.execute ms with
      | Except.ok out => ⟨out.chan, out.fired, out.pending, false⟩
      | Except.error _ => c.gatherFail
  | GatherResult.failure => c.gatherFail

/-- Completion of one `&mode=pull` ack fetch issued by `execute`: the
response body `data` is wrapped and handed to every `"message"` handler
registered at delivery time.  The chain has no `.catch`, so a missing
`"message"` set is an unhandled `TypeError` (`Except.error`); the channel
state is never modified. -/
def Channel.deliverPull (c : Channel) (data : Json) : Except Unit (List Event) :=
  match c.events.lookup "message" with
  | none => Except.error ()
  | some hs =>
      Except.ok (hs.map fun h => Event.messageEv h ⟨Json.stringify data⟩)

/-- How the `send` push fetch resolved: `ok msgs ty body` when the fetch
and `response.json()` succeeded, with `msgs` the (truthy) `messages` field
of the body, `ty` the truthiness of its `type` field, and `body` the whole
response body; `err` on a transport or parse failure. -/
inductive SendResult where
  | ok (msgs : Option (List Json)) (ty : Bool) (body : Json)
  | err

/-- The tail of `send`'s success callback:
`type && this.events.message.forEach(h => h(\x7b data: JSON.stringify(data) \x7d))`,
run on channel `c1` after `messages && this.execute(messages)` already
fired `fired1` and issued `pending1`.  A missing `"message"` set while
`type` is truthy is a `TypeError` with no `.catch` below it. -/
def Channel.sendFinish (c1 : Channel) (fired1 : List Event) (pending1 : List Json)
    (ty : Bool) (body : Json) : StepOut :=
  if ty then
    match c1.events.lookup "message" with
    | some hs =>
        ⟨c1, fired1 ++ hs.map (fun h => Event.messageEv h ⟨Json.stringify body⟩),
          pending1, false⟩
    | none => ⟨c1, fired1, pending1, true⟩
  else ⟨c1, fired1, pending1, false⟩

/-- Completion of a `send(message)` round trip.  The promise chain of
`send` has no `.catch`: a transport failure, or any exception thrown in
its `.then` callbacks, is an unhandled rejection.  On success it runs
`messages && this.execute(messages)` and then delivers the body itself as
a `"message"` event when `type` is truthy. -/
def Channel.send (c : Channel) (r : SendResult) : StepOut :=
  match r with
  | SendResult.err => ⟨c, [], [], true⟩
  | SendResult.ok none ty body => c.sendFinish [] [] ty body
  | SendResult.ok (some ms) ty body =>
      match c.execute ms with
      | Except.error _ => ⟨c, [], [], true⟩
      | Except.ok o => o.chan.sendFinish o.fired o.pending ty body

/-- Run a sequence of poll-cycle completions, collecting every handler
invocation in order. -/
def Channel.runPolls (c : Channel) : List GatherResult → Channel × List Event
  | [] => (c, [])
  | r :: rs =>
      let out := c.gather r
      let rest := out.chan.runPolls rs
      (rest.1, out.fired ++ rest.2)

/-- The timer periods currently armed (the scheduled poll intervals). -/
def Channel.periods (c : Channel) : List Nat := c.liveTimers.map Prod.snd

/-- Boolean test for `"open"` events in a trace. -/
def isOpenEv : Event → Bool
  | Event.openEv _ => true
  | _ => false

/-- Boolean test for `"close"` events in a trace. -/
def isCloseEv : Event → Bool
  | Event.closeEv _ => true
  | _ => false

theorem nonOpen_iff (s : ReadyState) :
    (s = ReadyState.CLOSED ∨ s = ReadyState.CONNECTING) ↔ s ≠ ReadyState.OPEN := by
  cases s <;> simp

theorem rearm_events (c : Channel) (p : Nat) : (c.rearm p).events = c.events := rfl

theorem rearm_openTimeout (c : Channel) (p : Nat) :
    (c.rearm p).openTimeout = c.openTimeout := rfl

theorem execute_of_openState (c : Channel) (ms : List Json)
    (h : c.readyState = ReadyState.OPEN) :
    c.execute ms = Except.ok ⟨{ c with readyState := ReadyState.OPEN }, [], ms⟩ := by
  rw [Channel.execute, if_neg]
  rw [nonOpen_iff, h]
  simp

theorem execute_of_nonOpen (c : Channel) (ms : List Json) (ohs : List Nat)
    (hne : c.readyState ≠ ReadyState.OPEN) (ho : c.events.lookup "open" = some ohs) :
    c.execute ms =
      Except.ok ⟨{ c.rearm c.openTimeout with
                     timeout := c.openTimeout, readyState := ReadyState.OPEN },
                 ohs.map Event.openEv, ms⟩ := by
  rw [Channel.execute, if_pos ((nonOpen_iff _).mpr hne), ho]

theorem execute_of_nonOpen_noHandler (c : Channel) (ms : List Json)
    (hne : c.readyState ≠ ReadyState.OPEN) (ho : c.events.lookup "open" = none) :
    c.execute ms = Except.error () := by
  rw [Channel.execute, if_pos ((nonOpen_iff _).mpr hne), ho]

/-- A successfully processed `execute` issues exactly the batch as ack
fetches, leaves the handler table and `openTimeout` unchanged, and leaves
the channel `OPEN`. -/
theorem execute_ok_shape (c : Channel) (ms : List Json) (exo : ExecOut)
    (h : c.execute ms = Except.ok exo) :
    exo.pending = ms ∧ exo.chan.events = c.events ∧
    exo.chan.openTimeout = c.openTimeout ∧
    exo.chan.readyState = ReadyState.OPEN ∧ exo.chan.location = c.location := by
  by_cases hs : c.readyState = ReadyState.OPEN
  · rw [execute_of_openState c ms hs] at h
    cases h
    exact ⟨rfl, rfl, rfl, rfl, rfl⟩
  · cases ho : c.events.lookup "open" with
    | none => rw [execute_of_nonOpen_noHandler c ms hs ho] at h; cases h
    | some ohs =>
        rw [execute_of_nonOpen c ms ohs hs ho] at h
        cases h
        exact ⟨rfl, rfl, rfl, rfl, rfl⟩

theorem gather_failure (c : Channel) : c.gather GatherResult.failure = c.gatherFail := rfl

theorem gatherFail_shape (c : Channel) :
    (c.gatherFail).chan.events = c.events ∧
    (c.gatherFail).chan.openTimeout = c.openTimeout ∧
    (c.gatherFail).chan.readyState = ReadyState.CLOSED ∧
    (c.gatherFail).chan.timeout = min (c.timeout * 2) 5000 ∧
    (c.gatherFail).pending = [] ∧ (c.gatherFail).uncaught = false := by
  exact ⟨rfl, rfl, rfl, rfl, rfl, rfl⟩

theorem gatherFail_fired_of_nonOpen (c : Channel) (h : c.readyState ≠ ReadyState.OPEN) :
    (c.gatherFail).fired = [] := by
  rw [Channel.gatherFail]
  simp [h]

theorem gatherFail_fired_of_open (c : Channel) (chs : List Nat)
    (h : c.readyState = ReadyState.OPEN) (hc : c.events.lookup "close" = some chs) :
    (c.gatherFail).fired = chs.map Event.closeEv := by
  rw [Channel.gatherFail]
  simp [h, hc]

theorem runPolls_nil (c : Channel) : c.runPolls [] = (c, []) := rfl

theorem runPolls_cons (c : Channel) (r : GatherResult) (rs : List GatherResult) :
    c.runPolls (r :: rs) =
      (((c.gather r).chan.runPolls rs).1,
        (c.gather r).fired ++ ((c.gather r).chan.runPolls rs).2) := rfl

theorem lookup_updateEvents_self (es : List (String × List Nat)) (k : String)
    (v w : List Nat) (h : es.lookup k = some w) :
    (updateEvents es k v).lookup k = some v := by
  induction es with
  | nil => cases h
  | cons p es ih =>
      by_cases hk : p.1 = k
      · subst hk
        rw [updateEvents, List.map, if_pos rfl, List.lookup]
        simp
      · have hne : (k == p.1) = false := by
          rw [beq_eq_false_iff_ne]
          exact fun he => hk he.symm
        rw [List.lookup, hne] at h
        rw [updateEvents, List.map, if_neg hk, List.lookup, hne]
        exact ih h

theorem gather_chan_events (c : Channel) (r : GatherResult) :
    (c.gather r).chan.events = c.events ∧
    (c.gather r).chan.openTimeout = c.openTimeout := by
  cases r with
  | failure => exact ⟨rfl, rfl⟩
  | success ms =>
      rw [Channel.gather]
      cases hex : c.execute ms with
      | error e => exact ⟨rfl, rfl⟩
      | ok exo =>
          have := execute_ok_shape c ms exo hex
          exact ⟨this.2.1, this.2.2.1⟩

/-- Every handler a `gather` completion invokes is registered, at
completion time, under the kind it is invoked for. -/
theorem gather_fired_registered (c : Channel) (r : GatherResult) :
    ∀ e ∈ (c.gather r).fired,
      ∃ l, c.events.lookup e.kind = some l ∧ e.handler ∈ l := by
  have hfail : ∀ e ∈ (c.gatherFail).fired,
      ∃ l, c.events.lookup e.kind = some l ∧ e.handler ∈ l := by
    by_cases hs : c.readyState = ReadyState.OPEN
    · cases hc : c.events.lookup "close" with
      | none =>
          rw [Channel.gatherFail]
          simp [hs, hc]
      | some chs =>
          rw [gatherFail_fired_of_open c chs hs hc]
          intro e he
          rcases List.mem_map.mp he with ⟨g, hg, rfl⟩
          exact ⟨chs, hc, hg⟩
    · rw [gatherFail_fired_of_nonOpen c hs]
      intro e he
      cases he
  cases r with
  | failure => exact hfail
  | success ms =>
      rw [Channel.gather]
      cases hex : c.execute ms with
      | error e => exact hfail
      | ok exo =>
          intro e he
          by_cases hs : c.readyState = ReadyState.OPEN
          · rw [execute_of_openState c ms hs] at hex
            cases hex
            cases he
          · cases ho : c.events.lookup "open" with
            | none => rw [execute_of_nonOpen_noHandler c ms hs ho] at hex; cases hex
            | some ohs =>
                rw [execute_of_nonOpen c ms ohs hs ho] at hex
                cases hex
                rcases List.mem_map.mp he with ⟨g, hg, rfl⟩
                exact ⟨ohs, ho, hg⟩

/-- Every handler a pull-ack delivery invokes is registered under
`"message"` at delivery time. -/
theorem deliverPull_fired_registered (c : Channel) (d : Json) (evs : List Event)
    (h : c.deliverPull d = Except.ok evs) :
    ∀ e ∈ evs, e.kind = "message" ∧
      ∃ l, c.events.lookup "message" = some l ∧ e.handler ∈ l := by
  rw [Channel.deliverPull] at h
  cases hm : c.events.lookup "message" with
  | none => rw [hm] at h; cases h
  | some hs =>
      rw [hm] at h
      cases h
      intro e he
      rcases List.mem_map.mp he with ⟨g, hg, rfl⟩
      exact ⟨rfl, hs, rfl, hg⟩

theorem filter_isOpenEv_map_openEv (l : List Nat) :
    (l.map Event.openEv).filter isOpenEv = l.map Event.openEv := by
  induction l with
  | nil => rfl
  | cons x xs ih => simp [isOpenEv, ih]

theorem filter_isOpenEv_map_closeEv (l : List Nat) :
    (l.map Event.closeEv).filter isOpenEv = [] := by
  induction l with
  | nil => rfl
  | cons x xs ih => simp [isOpenEv, ih]

theorem filter_isCloseEv_map_closeEv (l : List Nat) :
    (l.map Event.closeEv).filter isCloseEv = l.map Event.closeEv := by
  induction l with
  | nil => rfl
  | cons x xs ih => simp [isCloseEv, ih]

theorem filter_isCloseEv_map_openEv (l : List Nat) :
    (l.map Event.openEv).filter isCloseEv = [] := by
  induction l with
  | nil => rfl
  | cons x xs ih => simp [isCloseEv, ih]

theorem gather_success_open (c : Channel) (ms : List Json)
    (h : c.readyState = ReadyState.OPEN) :
    c.gather (GatherResult.success ms) =
      ⟨{ c with readyState := ReadyState.OPEN }, [], ms, false⟩ := by
  rw [Channel.gather, execute_of_openState c ms h]

theorem gather_success_nonOpen (c : Channel) (ms : List Json) (ohs : List Nat)
    (hne : c.readyState ≠ ReadyState.OPEN) (ho : c.events.lookup "open" = some ohs) :
    c.gather (GatherResult.success ms) =
      ⟨{ c.rearm c.openTimeout with
           timeout := c.openTimeout, readyState := ReadyState.OPEN },
        ohs.map Event.openEv, ms, false⟩ := by
  rw [Channel.gather, execute_of_nonOpen c ms ohs hne ho]

/-- Once the channel is `OPEN`, further successful polls keep it `OPEN`
and fire no handler at all. -/
theorem runPolls_success_from_open (c : Channel) (mss : List (List Json))
    (h : c.readyState = ReadyState.OPEN) :
    (c.runPolls (mss.map GatherResult.success)).2 = [] ∧
    (c.runPolls (mss.map GatherResult.success)).1.readyState = ReadyState.OPEN := by
  induction mss generalizing c with
  | nil => exact ⟨rfl, h⟩
  | cons ms mss ih =>
      rw [List.map, runPolls_cons, gather_success_open c ms h]
      have hih := ih { c with readyState := ReadyState.OPEN } rfl
      exact ⟨by rw [List.nil_append]; exact hih.1, hih.2⟩

/-- C1: the "open" event is edge-triggered.  A successful poll processed
while the state is `CLOSED` or `CONNECTING` invokes each registered
`"open"` handler exactly once; a successful poll processed while the state
is already `OPEN` invokes no handler at all; and over a run of `N ≥ 1`
consecutive successful polls starting from a non-`OPEN` state, the
`"open"` invocations of the whole run are exactly one per registered
handler — not `N` per handler. -/
theorem open_fires_once_per_transition (c : Channel) (ohs : List Nat)
    (mss : List (List Json))
    (ho : c.events.lookup "open" = some ohs) (hnd : ohs.Nodup)
    (hne : c.readyState ≠ ReadyState.OPEN) (hmss : mss ≠ []) :
    ((c.runPolls (mss.map GatherResult.success)).2.filter isOpenEv
        = ohs.map Event.openEv) ∧
    (∀ g ∈ ohs, ((c.runPolls (mss.map GatherResult.success)).2.filter
        isOpenEv).count (Event.openEv g) = 1) ∧
    (∀ d : Channel, d.readyState = ReadyState.OPEN →
      ∀ ms, (d.gather (GatherResult.success ms)).fired = []) := by
  have htrace : (c.runPolls (mss.map GatherResult.success)).2.filter isOpenEv
      = ohs.map Event.openEv := by
    cases mss with
    | nil => exact absurd rfl hmss
    | cons ms mss =>
        rw [List.map, runPolls_cons, gather_success_nonOpen c ms ohs hne ho]
        have hrest := runPolls_success_from_open
          { c.rearm c.openTimeout with
              timeout := c.openTimeout, readyState := ReadyState.OPEN } mss rfl
        rw [List.filter_append, hrest.1, filter_isOpenEv_map_openEv]
        rw [List.filter_nil, List.append_nil]
  refine ⟨htrace, ?_, ?_⟩
  · intro g hg
    rw [htrace]
    rw [List.count_map_of_injective ohs Event.openEv (fun a b hab => by cases hab; rfl) g]
    exact List.count_eq_one_of_mem hnd hg
  · intro d hd ms
    rw [gather_success_open d ms hd]

/-- Witness for C1 at a concrete channel with one `"open"` handler and
three consecutive successful polls. -/
theorem open_fires_once_per_transition_witness :
    (((Channel.init "http://h").addEventListener "open" 7).events.lookup "open"
        = some [7]) ∧
    (((Channel.init "http://h").addEventListener "open" 7).readyState
        ≠ ReadyState.OPEN) ∧
    ((((Channel.init "http://h").addEventListener "open" 7).runPolls
        ([[], [], []].map GatherResult.success)).2.filter isOpenEv
        = [7].map Event.openEv) :=
  ⟨by decide, by decide,
    (open_fires_once_per_transition ((Channel.init "http://h").addEventListener "open" 7)
      [7] [[], [], []] (by decide) (by decide) (by decide)
      (by exact List.cons_ne_nil _ _)).1⟩

/-- Timer bookkeeping invariant: exactly the timer stored in
`this.interval` is armed, and its period is the current `timeout`. -/
def Channel.timerSync (c : Channel) : Prop :=
  c.liveTimers = [(c.interval, c.timeout)]

theorem rearm_of_sync (c : Channel) (p : Nat) (h : c.timerSync) :
    (c.rearm p).liveTimers = [((c.rearm p).interval, p)] := by
  have h' : c.liveTimers = [(c.interval, c.timeout)] := h
  simp [Channel.rearm, h', List.filter]

theorem gatherFail_sync (c : Channel) (h : c.timerSync) :
    (c.gatherFail).chan.timerSync :=
  rearm_of_sync c (min (c.timeout * 2) 5000) h

theorem periods_of_sync (c : Channel) (h : c.timerSync) :
    c.periods = [c.timeout] := by
  rw [Channel.periods, show c.liveTimers = [(c.interval, c.timeout)] from h]
  rfl

theorem execute_ok_sync (c : Channel) (ms : List Json) (exo : ExecOut)
    (hex : c.execute ms = Except.ok exo) (h : c.timerSync) : exo.chan.timerSync := by
  by_cases hs : c.readyState = ReadyState.OPEN
  · rw [execute_of_openState c ms hs] at hex
    cases hex
    exact h
  · cases ho : c.events.lookup "open" with
    | none => rw [execute_of_nonOpen_noHandler c ms hs ho] at hex; cases hex
    | some ohs =>
        rw [execute_of_nonOpen c ms ohs hs ho] at hex
        cases hex
        exact rearm_of_sync c c.openTimeout h

theorem gather_sync (c : Channel) (r : GatherResult) (h : c.timerSync) :
    (c.gather r).chan.timerSync := by
  cases r with
  | failure => exact gatherFail_sync c h
  | success ms =>
      rw [Channel.gather]
      cases hex : c.execute ms with
      | error e => exact gatherFail_sync c h
      | ok exo => exact execute_ok_sync c ms exo hex h

theorem gather_success_nonOpen_periods (c : Channel) (ms : List Json) (ohs : List Nat)
    (hne : c.readyState ≠ ReadyState.OPEN) (ho : c.events.lookup "open" = some ohs)
    (hsync : c.timerSync) :
    (c.gather (GatherResult.success ms)).chan.periods = [c.openTimeout] ∧
    (c.gather (GatherResult.success ms)).chan.timeout = c.openTimeout := by
  rw [gather_success_nonOpen c ms ohs hne ho]
  constructor
  · show ((c.rearm c.openTimeout).liveTimers).map Prod.snd = [c.openTimeout]
    rw [rearm_of_sync c c.openTimeout hsync]
    rfl
  · rfl

theorem gatherFail_periods (c : Channel) (hsync : c.timerSync) :
    (c.gatherFail).chan.periods = [min (c.timeout * 2) 5000] := by
  show ((c.rearm (min (c.timeout * 2) 5000)).liveTimers).map Prod.snd = _
  rw [rearm_of_sync c (min (c.timeout * 2) 5000) hsync]
  rfl

theorem runPolls_failure_timeout_le (c : Channel) (k : Nat) (h : c.timeout ≤ 5000) :
    (c.runPolls (List.replicate k GatherResult.failure)).1.timeout ≤ 5000 := by
  induction k generalizing c with
  | zero => exact h
  | succ k ih =>
      rw [List.replicate_succ, runPolls_cons]
      exact ih (c.gather GatherResult.failure).chan (min_le_right _ _)

/-- C2: starting from the base interval 2000 ms, each consecutive poll
failure doubles the retry interval with a cap of 5000 ms — the armed timer
periods after 0, 1, 2, 3 failures are 2000, 4000, 5000, 5000 — the
interval never exceeds 5000 for any number of consecutive failures, and a
subsequent successful poll resets the armed period to 2000. -/
theorem backoff_doubles_capped_and_resets (c : Channel) (ohs : List Nat) (ms : List Json)
    (ho : c.events.lookup "open" = some ohs)
    (ht : c.timeout = 2000) (hot : c.openTimeout = 2000) (hsync : c.timerSync) :
    c.periods = [2000] ∧
    (c.runPolls [GatherResult.failure]).1.periods = [4000] ∧
    (c.runPolls [GatherResult.failure, GatherResult.failure]).1.periods = [5000] ∧
    (c.runPolls [GatherResult.failure, GatherResult.failure,
        GatherResult.failure]).1.periods = [5000] ∧
    (∀ k : Nat, (c.runPolls (List.replicate k GatherResult.failure)).1.timeout ≤ 5000) ∧
    (c.runPolls [GatherResult.failure, GatherResult.failure, GatherResult.failure,
        GatherResult.success ms]).1.periods = [2000] := by
  have hsh1 := gatherFail_shape c
  have hs1 : (c.gatherFail).chan.timerSync := gatherFail_sync c hsync
  have ht1 : (c.gatherFail).chan.timeout = 4000 := by
    rw [hsh1.2.2.2.1, ht]
    decide
  have hsh2 := gatherFail_shape (c.gatherFail).chan
  have hs2 : ((c.gatherFail).chan.gatherFail).chan.timerSync := gatherFail_sync _ hs1
  have ht2 : ((c.gatherFail).chan.gatherFail).chan.timeout = 5000 := by
    rw [hsh2.2.2.2.1, ht1]
    decide
  have hsh3 := gatherFail_shape ((c.gatherFail).chan.gatherFail).chan
  have hs3 : (((c.gatherFail).chan.gatherFail).chan.gatherFail).chan.timerSync :=
    gatherFail_sync _ hs2
  have ht3 : (((c.gatherFail).chan.gatherFail).chan.gatherFail).chan.timeout = 5000 := by
    rw [hsh3.2.2.2.1, ht2]
    decide
  have hne3 :
      (((c.gatherFail).chan.gatherFail).chan.gatherFail).chan.readyState
        ≠ ReadyState.OPEN := by
    rw [hsh3.2.2.1]
    decide
  have ho3 :
      (((c.gatherFail).chan.gatherFail).chan.gatherFail).chan.events.lookup "open"
        = some ohs := by
    rw [hsh3.1, hsh2.1, hsh1.1]
    exact ho
  have hot3 :
      (((c.gatherFail).chan.gatherFail).chan.gatherFail).chan.openTimeout = 2000 := by
    rw [hsh3.2.1, hsh2.2.1, hsh1.2.1]
    exact hot
  refine ⟨?_, ?_, ?_, ?_, ?_, ?_⟩
  · rw [periods_of_sync c hsync, ht]
  · show (c.gatherFail).chan.periods = [4000]
    rw [periods_of_sync _ hs1, ht1]
  · show ((c.gatherFail).chan.gatherFail).chan.periods = [5000]
    rw [periods_of_sync _ hs2, ht2]
  · show (((c.gatherFail).chan.gatherFail).chan.gatherFail).chan.periods = [5000]
    rw [periods_of_sync _ hs3, ht3]
  · intro k
    exact runPolls_failure_timeout_le c k (by rw [ht]; norm_num)
  · show ((((c.gatherFail).chan.gatherFail).chan.gatherFail).chan.gather
        (GatherResult.success ms)).chan.periods = [2000]
    rw [(gather_success_nonOpen_periods _ ms ohs hne3 ho3 hs3).1, hot3]

/-- Witness for C2 at a freshly constructed channel with one `"open"`
handler registered. -/
theorem backoff_doubles_capped_and_resets_witness :
    (((Channel.init "http://h").addEventListener "open" 7).timeout = 2000) ∧
    (((Channel.init "http://h").addEventListener "open" 7).timerSync) ∧
    ((((Channel.init "http://h").addEventListener "open" 7).runPolls
        [GatherResult.failure]).1.periods = [4000]) ∧
    ((((Channel.init "http://h").addEventListener "open" 7).runPolls
        [GatherResult.failure, GatherResult.failure, GatherResult.failure,
          GatherResult.success []]).1.periods = [2000]) :=
  ⟨by decide, by unfold Channel.timerSync; decide,
    (backoff_doubles_capped_and_resets
      ((Channel.init "http://h").addEventListener "open" 7) [7] []
      (by decide) (by decide) (by decide) (by unfold Channel.timerSync; decide)).2.1,
    (backoff_doubles_capped_and_resets
      ((Channel.init "http://h").addEventListener "open" 7) [7] []
      (by decide) (by decide) (by decide) (by unfold Channel.timerSync; decide)).2.2.2.2.2⟩

theorem runPolls_append_trace (c : Channel) (rs1 rs2 : List GatherResult) :
    (c.runPolls (rs1 ++ rs2)).2
      = (c.runPolls rs1).2 ++ ((c.runPolls rs1).1.runPolls rs2).2 := by
  induction rs1 generalizing c with
  | nil => rfl
  | cons r rs ih =>
      show (c.gather r).fired ++ ((c.gather r).chan.runPolls (rs ++ rs2)).2
        = ((c.gather r).fired ++ ((c.gather r).chan.runPolls rs).2)
          ++ (((c.gather r).chan.runPolls rs).1.runPolls rs2).2
      rw [ih (c.gather r).chan, List.append_assoc]

/-- After `k ≥ 1` consecutive poll failures the channel is `CLOSED`, its
handler table and `openTimeout` are untouched, and the only handler
invocations of the whole run are those of the first failure. -/
theorem runPolls_failure_run (c : Channel) (k : Nat) (hk : k ≠ 0) :
    (c.runPolls (List.replicate k GatherResult.failure)).1.events = c.events ∧
    (c.runPolls (List.replicate k GatherResult.failure)).1.openTimeout = c.openTimeout ∧
    (c.runPolls (List.replicate k GatherResult.failure)).1.readyState
        = ReadyState.CLOSED ∧
    (c.runPolls (List.replicate k GatherResult.failure)).2 = (c.gatherFail).fired := by
  induction k generalizing c with
  | zero => exact absurd rfl hk
  | succ k ih =>
      cases k with
      | zero =>
          refine ⟨(gatherFail_shape c).1, (gatherFail_shape c).2.1,
            (gatherFail_shape c).2.2.1, ?_⟩
          show (c.gatherFail).fired ++ [] = (c.gatherFail).fired
          rw [List.append_nil]
      | succ k =>
          have hih := ih (c.gatherFail).chan (Nat.succ_ne_zero k)
          refine ⟨?_, ?_, hih.2.2.1, ?_⟩
          · show ((c.gatherFail).chan.runPolls
                (List.replicate (k + 1) GatherResult.failure)).1.events = c.events
            rw [hih.1, (gatherFail_shape c).1]
          · show ((c.gatherFail).chan.runPolls
                (List.replicate (k + 1) GatherResult.failure)).1.openTimeout
                = c.openTimeout
            rw [hih.2.1, (gatherFail_shape c).2.1]
          · show (c.gatherFail).fired ++ ((c.gatherFail).chan.runPolls
                (List.replicate (k + 1) GatherResult.failure)).2 = (c.gatherFail).fired
            rw [hih.2.2.2,
              gatherFail_fired_of_nonOpen (c.gatherFail).chan
                (by rw [(gatherFail_shape c).2.2.1]; decide),
              List.append_nil]

/-- C3: the "close" event is edge-triggered.  A failing poll invokes each
registered `"close"` handler exactly once when the state is `OPEN`, and no
handler at all when the state is already `CLOSED` or `CONNECTING`; a
transient outage of `k ≥ 1` consecutive failing polls between two
successful polls produces exactly one `"close"` invocation per registered
close handler and, on the success ending the outage, exactly one `"open"`
invocation per registered open handler, regardless of `k`. -/
theorem close_fires_once_per_outage (c : Channel) (chs ohs : List Nat) (k : Nat)
    (ms : List Json)
    (hopen : c.readyState = ReadyState.OPEN)
    (hc : c.events.lookup "close" = some chs)
    (ho : c.events.lookup "open" = some ohs)
    (hk : k ≠ 0) :
    ((c.gather GatherResult.failure).fired = chs.map Event.closeEv) ∧
    (∀ d : Channel, d.readyState ≠ ReadyState.OPEN →
        (d.gather GatherResult.failure).fired = []) ∧
    ((c.runPolls (List.replicate k GatherResult.failure
        ++ [GatherResult.success ms])).2.filter isCloseEv = chs.map Event.closeEv) ∧
    ((c.runPolls (List.replicate k GatherResult.failure
        ++ [GatherResult.success ms])).2.filter isOpenEv = ohs.map Event.openEv) := by
  have hfr := runPolls_failure_run c k hk
  have hmidne : (c.runPolls (List.replicate k GatherResult.failure)).1.readyState
      ≠ ReadyState.OPEN := by
    rw [hfr.2.2.1]
    decide
  have hmido : (c.runPolls
      (List.replicate k GatherResult.failure)).1.events.lookup "open" = some ohs := by
    rw [hfr.1]
    exact ho
  have hsucc := gather_success_nonOpen
    (c.runPolls (List.replicate k GatherResult.failure)).1 ms ohs hmidne hmido
  have h2 : ((c.runPolls (List.replicate k GatherResult.failure)).1.runPolls
      [GatherResult.success ms]).2 = ohs.map Event.openEv := by
    rw [runPolls_cons, hsucc]
    exact List.append_nil _
  have htrace : (c.runPolls (List.replicate k GatherResult.failure
      ++ [GatherResult.success ms])).2
      = chs.map Event.closeEv ++ ohs.map Event.openEv := by
    rw [runPolls_append_trace, hfr.2.2.2, h2,
      gatherFail_fired_of_open c chs hopen hc]
  refine ⟨gatherFail_fired_of_open c chs hopen hc,
    (fun d hd => gatherFail_fired_of_nonOpen d hd), ?_, ?_⟩
  · rw [htrace, List.filter_append, filter_isCloseEv_map_closeEv,
      filter_isCloseEv_map_openEv, List.append_nil]
  · rw [htrace, List.filter_append, filter_isOpenEv_map_closeEv,
      filter_isOpenEv_map_openEv, List.nil_append]

/-- Witness for C3: an `OPEN` channel with one open and one close handler,
and an outage of two failing polls ended by a success. -/
theorem close_fires_once_per_outage_witness :
    (((((Channel.init "http://h").addEventListener "open" 1).addEventListener
        "close" 2).gather (GatherResult.success [])).chan.readyState
        = ReadyState.OPEN) ∧
    ((((((Channel.init "http://h").addEventListener "open" 1).addEventListener
        "close" 2).gather (GatherResult.success [])).chan.runPolls
        (List.replicate 2 GatherResult.failure
          ++ [GatherResult.success []])).2.filter isCloseEv
        = [2].map Event.closeEv) ∧
    ((((((Channel.init "http://h").addEventListener "open" 1).addEventListener
        "close" 2).gather (GatherResult.success [])).chan.runPolls
        (List.replicate 2 GatherResult.failure
          ++ [GatherResult.success []])).2.filter isOpenEv
        = [1].map Event.openEv) :=
  ⟨by decide,
    (close_fires_once_per_outage
      (((((Channel.init "http://h").addEventListener "open" 1).addEventListener
          "close" 2).gather (GatherResult.success []))).chan
      [2] [1] 2 [] (by decide) (by decide) (by decide) (by decide)).2.2.1,
    (close_fires_once_per_outage
      (((((Channel.init "http://h").addEventListener "open" 1).addEventListener
          "close" 2).gather (GatherResult.success []))).chan
      [2] [1] 2 [] (by decide) (by decide) (by decide) (by decide)).2.2.2⟩

/-- C4: a successfully processed poll whose batch contains `N` messages
issues exactly `N` ack round trips in batch order, and each one, on
completion, delivers one `"message"` event to every handler registered
under `"message"`, wrapped as an object whose `data` field is the
JSON-serialized string of that round trip's response payload (`ack m` for
batch message `m`).  So the delivery groups are exactly `N`, in the same
order as the messages appear in the batch. -/
theorem batch_messages_delivered_in_order (c : Channel) (ms : List Json)
    (mhs : List Nat) (exo : ExecOut) (ack : Json → Json)
    (hex : c.execute ms = Except.ok exo)
    (hm : c.events.lookup "message" = some mhs) :
    exo.pending = ms ∧
    exo.pending.map (fun m => exo.chan.deliverPull (ack m))
      = ms.map (fun m => Except.ok (mhs.map
          (fun h => Event.messageEv h ⟨Json.stringify (ack m)⟩))) ∧
    (exo.pending.map (fun m => exo.chan.deliverPull (ack m))).length = ms.length := by
  have hsh := execute_ok_shape c ms exo hex
  have hdel : ∀ d : Json, exo.chan.deliverPull d
      = Except.ok (mhs.map (fun h => Event.messageEv h ⟨Json.stringify d⟩)) := by
    intro d
    rw [Channel.deliverPull, hsh.2.1, hm]
  refine ⟨hsh.1, ?_, ?_⟩
  · rw [hsh.1]
    simp only [hdel]
  · rw [hsh.1]
    simp

/-- Witness for C4 at an `OPEN` channel with one `"message"` handler and a
one-message batch. -/
theorem batch_messages_delivered_in_order_witness :
    ((((Channel.init "http://h").addEventListener "open" 1).addEventListener
        "message" 3).gather (GatherResult.success [])).chan.execute [Json.null]
      = Except.ok
          ⟨((((Channel.init "http://h").addEventListener "open" 1).addEventListener
              "message" 3).gather (GatherResult.success [])).chan, [], [Json.null]⟩ ∧
    ((((Channel.init "http://h").addEventListener "open" 1).addEventListener
        "message" 3).gather (GatherResult.success [])).chan.events.lookup "message"
      = some [3] ∧
    (ExecOut.pending
        ⟨((((Channel.init "http://h").addEventListener "open" 1).addEventListener
            "message" 3).gather (GatherResult.success [])).chan, [], [Json.null]⟩).map
        (fun m =>
          (ExecOut.chan
            ⟨((((Channel.init "http://h").addEventListener "open" 1).addEventListener
                "message" 3).gather (GatherResult.success [])).chan, [],
              [Json.null]⟩).deliverPull ((fun _ => Json.str "r") m))
      = [Json.null].map (fun m => Except.ok ([3].map
          (fun h => Event.messageEv h ⟨Json.stringify ((fun _ => Json.str "r") m)⟩))) :=
  ⟨rfl, by decide,
    (batch_messages_delivered_in_order
      ((((Channel.init "http://h").addEventListener "open" 1).addEventListener
          "message" 3).gather (GatherResult.success [])).chan
      [Json.null] [3]
      ⟨((((Channel.init "http://h").addEventListener "open" 1).addEventListener
          "message" 3).gather (GatherResult.success [])).chan, [], [Json.null]⟩
      (fun _ => Json.str "r") rfl (by decide)).2.1⟩

/-- C5 counterexample: on an `OPEN` channel with a registered `"close"`
handler, a transport failure of a `send` round trip fires no handler,
leaves the channel (state, retry interval, timer) completely unchanged —
no "close" event, no backoff rescheduling — and escapes as an unhandled
rejection, because the `send` promise chain has no `.catch`. -/
theorem send_transport_failure_not_absorbed_cex :
    (((((((Channel.init "http://h").addEventListener "open" 1).addEventListener
        "close" 2).gather (GatherResult.success [])).chan).send
        SendResult.err).uncaught = true) ∧
    (((((((Channel.init "http://h").addEventListener "open" 1).addEventListener
        "close" 2).gather (GatherResult.success [])).chan).send
        SendResult.err).fired = []) ∧
    (((((((Channel.init "http://h").addEventListener "open" 1).addEventListener
        "close" 2).gather (GatherResult.success [])).chan).send
        SendResult.err).chan
      = (((((Channel.init "http://h").addEventListener "open" 1).addEventListener
          "close" 2).gather (GatherResult.success []))).chan) ∧
    ((((((Channel.init "http://h").addEventListener "open" 1).addEventListener
        "close" 2).gather (GatherResult.success []))).chan.readyState
      = ReadyState.OPEN) :=
  ⟨rfl, rfl, rfl, by decide⟩

/-- C5 (amended): transport failures of the recurring poll are absorbed by
`gather`'s `.catch` (nothing escapes) and translated into the failure
branch — state `CLOSED`, doubled-and-capped retry interval (with the
edge-triggered "close" firing covered by the close-event theorem) — but a
transport failure of a `send` round trip is not handled at all: it fires
no handler, changes no channel state, and is an unhandled promise
rejection (though `send` returns nothing to the caller, so no rejected
promise is handed back either). -/
theorem poll_failures_absorbed_send_failures_unhandled :
    (∀ (c : Channel) (r : GatherResult), (c.gather r).uncaught = false) ∧
    (∀ c : Channel, (c.gather GatherResult.failure).chan.readyState
        = ReadyState.CLOSED ∧
      (c.gather GatherResult.failure).chan.timeout = min (c.timeout * 2) 5000) ∧
    (∀ c : Channel, c.send SendResult.err = ⟨c, [], [], true⟩) := by
  refine ⟨?_, ?_, ?_⟩
  · intro c r
    cases r with
    | failure => rfl
    | success ms =>
        rw [Channel.gather]
        cases hex : c.execute ms with
        | error e => rfl
        | ok exo => rfl
  · intro c
    exact ⟨rfl, rfl⟩
  · intro c
    rfl

/-- C6 counterexample: unsubscribing a handler from an event kind under
which no handler was ever registered is not a silent no-op — the source
reads `this.events[eventType]`, which is `undefined`, and calling
`.delete` on it throws a `TypeError`. -/
theorem remove_unregistered_kind_throws_cex :
    (Channel.init "http://h").removeEventListener "message" 0
      = Except.error () := rfl

/-- C6 (amended): when the event kind has an entry (some handler was
registered under it at some point), `removeEventListener` removes exactly
the given handler from that kind's set and is a silent no-op if the
handler is absent from the set; but when the kind has no entry at all, the
call throws instead of being a no-op. -/
theorem remove_listener_semantics (c : Channel) (k : String) (h : Nat) (hs : List Nat)
    (hk : c.events.lookup k = some hs) (hnd : hs.Nodup) :
    (c.removeEventListener k h
        = Except.ok { c with events := updateEvents c.events k (hs.erase h) }) ∧
    (∀ g : Nat, g ∈ hs.erase h ↔ (g ∈ hs ∧ g ≠ h)) ∧
    (h ∉ hs → hs.erase h = hs) ∧
    (∀ d : Channel, d.events.lookup k = none →
        d.removeEventListener k h = Except.error ()) := by
  refine ⟨?_, ?_, ?_, ?_⟩
  · rw [Channel.removeEventListener, hk]
  · intro g
    constructor
    · intro hg
      refine ⟨List.mem_of_mem_erase hg, ?_⟩
      intro he
      subst he
      exact (List.Nodup.not_mem_erase hnd) hg
    · intro hgp
      exact (List.mem_erase_of_ne hgp.2).mpr hgp.1
  · exact List.erase_of_not_mem
  · intro d hd
    rw [Channel.removeEventListener, hd]

/-- Witness for the amended C6 at a channel with two `"message"` handlers,
removing one that is registered. -/
theorem remove_listener_semantics_witness :
    ((((Channel.init "http://h").addEventListener "message" 3).addEventListener
        "message" 5).events.lookup "message" = some [3, 5]) ∧
    ([3, 5].Nodup) ∧
    ((((Channel.init "http://h").addEventListener "message" 3).addEventListener
        "message" 5).removeEventListener "message" 3
      = Except.ok { (((Channel.init "http://h").addEventListener "message"
          3).addEventListener "message" 5) with
            events := updateEvents (((Channel.init "http://h").addEventListener
              "message" 3).addEventListener "message" 5).events "message"
              ([3, 5].erase 3) }) :=
  ⟨by decide, by decide,
    (remove_listener_semantics
      (((Channel.init "http://h").addEventListener "message" 3).addEventListener
        "message" 5) "message" 3 [3, 5] (by decide) (by decide)).1⟩

/-- One observable state mutation of a channel: a poll completion, a send
completion, or a listener registration change.  (Pull-ack deliveries never
mutate the channel.) -/
inductive Channel.Step : Channel → Channel → Prop
  | poll (c : Channel) (r : GatherResult) : Channel.Step c (c.gather r).chan
  | push (c : Channel) (r : SendResult) : Channel.Step c (c.send r).chan
  | add (c : Channel) (k : String) (h : Nat) :
      Channel.Step c (c.addEventListener k h)
  | remove (c c' : Channel) (k : String) (h : Nat) :
      c.removeEventListener k h = Except.ok c' → Channel.Step c c'

/-- Channel states reachable from `new HTTPSSocket(location)` by any
sequence of completions and (un)subscriptions. -/
inductive Channel.Reachable : Channel → Prop
  | init (loc : String) : Channel.Reachable (Channel.init loc)
  | step {c c' : Channel} : Channel.Reachable c → Channel.Step c c' →
      Channel.Reachable c'

/-- State invariant maintained by every channel operation: `openTimeout`
is the constant 2000, `timeout` stays within [2000, 5000], exactly the
timer stored in `this.interval` is armed (at period `timeout`), and an
`OPEN` channel always has `timeout` back at the base value. -/
def Channel.Inv (c : Channel) : Prop :=
  c.openTimeout = 2000 ∧ 2000 ≤ c.timeout ∧ c.timeout ≤ 5000 ∧
  c.timerSync ∧ (c.readyState = ReadyState.OPEN → c.timeout = 2000)

theorem Inv_init (loc : String) : (Channel.init loc).Inv := by
  refine ⟨rfl, le_refl _, ?_, rfl, ?_⟩
  · show (2000 : Nat) ≤ 5000
    decide
  intro h
  exact ReadyState.noConfusion h

theorem Inv_gatherFail (c : Channel) (h : c.Inv) : (c.gatherFail).chan.Inv := by
  obtain ⟨hot, hlo, hhi, hsync, hopen⟩ := h
  refine ⟨hot, ?_, ?_, gatherFail_sync c hsync, ?_⟩
  · show 2000 ≤ min (c.timeout * 2) 5000
    exact le_min (by omega) (by omega)
  · exact min_le_right _ _
  · intro ho'
    rw [(gatherFail_shape c).2.2.1] at ho'
    exact ReadyState.noConfusion ho'

theorem Inv_execute (c : Channel) (ms : List Json) (exo : ExecOut)
    (hex : c.execute ms = Except.ok exo) (h : c.Inv) : exo.chan.Inv := by
  obtain ⟨hot, hlo, hhi, hsync, hopen⟩ := h
  by_cases hs : c.readyState = ReadyState.OPEN
  · rw [execute_of_openState c ms hs] at hex
    cases hex
    exact ⟨hot, hlo, hhi, hsync, fun _ => hopen hs⟩
  · cases ho : c.events.lookup "open" with
    | none => rw [execute_of_nonOpen_noHandler c ms hs ho] at hex; cases hex
    | some ohs =>
        rw [execute_of_nonOpen c ms ohs hs ho] at hex
        cases hex
        refine ⟨hot, ?_, ?_, rearm_of_sync c c.openTimeout hsync, fun _ => hot⟩
        · show 2000 ≤ c.openTimeout
          omega
        · show c.openTimeout ≤ 5000
          omega

theorem Inv_gather (c : Channel) (r : GatherResult) (h : c.Inv) :
    (c.gather r).chan.Inv := by
  cases r with
  | failure => exact Inv_gatherFail c h
  | success ms =>
      rw [Channel.gather]
      cases hex : c.execute ms with
      | error e => exact Inv_gatherFail c h
      | ok exo => exact Inv_execute c ms exo hex h

theorem sendFinish_chan (c1 : Channel) (f : List Event) (p : List Json)
    (ty : Bool) (body : Json) : (Channel.sendFinish c1 f p ty body).chan = c1 := by
  rw [Channel.sendFinish]
  cases ty with
  | false => rfl
  | true => cases hm : c1.events.lookup "message" <;> simp [hm]

theorem Inv_send (c : Channel) (r : SendResult) (h : c.Inv) : (c.send r).chan.Inv := by
  cases r with
  | err => exact h
  | ok msgs ty body =>
      cases msgs with
      | none =>
          rw [Channel.send, sendFinish_chan]
          exact h
      | some ms =>
          rw [Channel.send]
          cases hex : c.execute ms with
          | error e => exact h
          | ok exo =>
              rw [sendFinish_chan]
              exact Inv_execute c ms exo hex h

theorem addEventListener_same (c : Channel) (k : String) (h : Nat) :
    (c.addEventListener k h).readyState = c.readyState ∧
    (c.addEventListener k h).openTimeout = c.openTimeout ∧
    (c.addEventListener k h).timeout = c.timeout ∧
    (c.addEventListener k h).interval = c.interval ∧
    (c.addEventListener k h).liveTimers = c.liveTimers ∧
    (c.addEventListener k h).nextTimer = c.nextTimer := by
  rw [Channel.addEventListener]
  cases c.events.lookup k <;> exact ⟨rfl, rfl, rfl, rfl, rfl, rfl⟩

theorem removeEventListener_same (c c' : Channel) (k : String) (h : Nat)
    (hrm : c.removeEventListener k h = Except.ok c') :
    c'.readyState = c.readyState ∧ c'.openTimeout = c.openTimeout ∧
    c'.timeout = c.timeout ∧ c'.interval = c.interval ∧
    c'.liveTimers = c.liveTimers ∧ c'.nextTimer = c.nextTimer := by
  rw [Channel.removeEventListener] at hrm
  cases hsk : c.events.lookup k with
  | none => rw [hsk] at hrm; cases hrm
  | some hs =>
      rw [hsk] at hrm
      cases hrm
      exact ⟨rfl, rfl, rfl, rfl, rfl, rfl⟩

theorem Inv_add (c : Channel) (k : String) (h : Nat) (hi : c.Inv) :
    (c.addEventListener k h).Inv := by
  obtain ⟨hot, hlo, hhi, hsync, hopen⟩ := hi
  have hsame := addEventListener_same c k h
  refine ⟨?_, ?_, ?_, ?_, ?_⟩
  · rw [hsame.2.1]; exact hot
  · rw [hsame.2.2.1]; exact hlo
  · rw [hsame.2.2.1]; exact hhi
  · show (c.addEventListener k h).liveTimers
      = [((c.addEventListener k h).interval, (c.addEventListener k h).timeout)]
    rw [hsame.2.2.2.2.1, hsame.2.2.2.1, hsame.2.2.1]
    exact hsync
  · intro ho'
    rw [hsame.2.2.1]
    exact hopen (by rw [hsame.1] at ho'; exact ho')

theorem Inv_remove (c c' : Channel) (k : String) (h : Nat)
    (hrm : c.removeEventListener k h = Except.ok c') (hi : c.Inv) : c'.Inv := by
  obtain ⟨hot, hlo, hhi, hsync, hopen⟩ := hi
  have hsame := removeEventListener_same c c' k h hrm
  refine ⟨?_, ?_, ?_, ?_, ?_⟩
  · rw [hsame.2.1]; exact hot
  · rw [hsame.2.2.1]; exact hlo
  · rw [hsame.2.2.1]; exact hhi
  · show c'.liveTimers = [(c'.interval, c'.timeout)]
    rw [hsame.2.2.2.2.1, hsame.2.2.2.1, hsame.2.2.1]
    exact hsync
  · intro ho'
    rw [hsame.2.2.1]
    exact hopen (by rw [hsame.1] at ho'; exact ho')

theorem Inv_step (c c' : Channel) (hs : Channel.Step c c') (h : c.Inv) : c'.Inv := by
  cases hs with
  | poll r => exact Inv_gather c r h
  | push r => exact Inv_send c r h
  | add k hh => exact Inv_add c k hh h
  | remove =>
      rename_i k2 h2 hrm2
      exact Inv_remove c c' k2 h2 hrm2 h

theorem Inv_reachable (c : Channel) (h : c.Reachable) : c.Inv := by
  induction h with
  | init loc => exact Inv_init loc
  | step hr hs ih => exact Inv_step _ _ hs ih

/-- C7: on every reachable channel state, (i) whenever the channel is
`OPEN` the retry interval (and the armed timer period) already sits at the
base value 2000; (ii) a poll completion either leaves the retry interval
no smaller than before, or resets it to the base value — and the latter
happens only when the poll transitions a non-`OPEN` channel into `OPEN`;
(iii) after any successfully processed poll (including one completing
while the channel is already `OPEN`, whose success branch performs no
reset) the next scheduled retry interval is exactly the base value
2000. -/
theorem retry_reset_only_on_open_transition (c : Channel) (hreach : c.Reachable) :
    (c.readyState = ReadyState.OPEN →
        c.timeout = 2000 ∧ c.liveTimers = [(c.interval, 2000)]) ∧
    (∀ r : GatherResult,
        c.timeout ≤ (c.gather r).chan.timeout ∨
        ((c.gather r).chan.timeout = 2000 ∧ c.readyState ≠ ReadyState.OPEN ∧
          (c.gather r).chan.readyState = ReadyState.OPEN)) ∧
    (∀ (ms : List Json) (exo : ExecOut), c.execute ms = Except.ok exo →
        exo.chan.timeout = 2000 ∧
        exo.chan.liveTimers = [(exo.chan.interval, 2000)]) := by
  obtain ⟨hot, hlo, hhi, hsync, hopen⟩ := Inv_reachable c hreach
  have hfailge : c.timeout ≤ (c.gatherFail).chan.timeout := by
    show c.timeout ≤ min (c.timeout * 2) 5000
    exact le_min (by omega) hhi
  refine ⟨?_, ?_, ?_⟩
  · intro hs
    refine ⟨hopen hs, ?_⟩
    rw [show c.liveTimers = [(c.interval, c.timeout)] from hsync, hopen hs]
  · intro r
    cases r with
    | failure => exact Or.inl hfailge
    | success ms =>
        rw [Channel.gather]
        cases hex : c.execute ms with
        | error e => exact Or.inl hfailge
        | ok exo =>
            by_cases hs : c.readyState = ReadyState.OPEN
            · rw [execute_of_openState c ms hs] at hex
              cases hex
              exact Or.inl (le_refl _)
            · cases ho : c.events.lookup "open" with
              | none =>
                  rw [execute_of_nonOpen_noHandler c ms hs ho] at hex
                  cases hex
              | some ohs =>
                  rw [execute_of_nonOpen c ms ohs hs ho] at hex
                  cases hex
                  exact Or.inr ⟨hot, hs, rfl⟩
  · intro ms exo hex
    by_cases hs : c.readyState = ReadyState.OPEN
    · rw [execute_of_openState c ms hs] at hex
      cases hex
      refine ⟨hopen hs, ?_⟩
      rw [show ({ c with readyState := ReadyState.OPEN } : Channel).liveTimers
          = c.liveTimers from rfl,
        show c.liveTimers = [(c.interval, c.timeout)] from hsync, hopen hs]
    · cases ho : c.events.lookup "open" with
      | none => rw [execute_of_nonOpen_noHandler c ms hs ho] at hex; cases hex
      | some ohs =>
          rw [execute_of_nonOpen c ms ohs hs ho] at hex
          cases hex
          refine ⟨hot, ?_⟩
          rw [rearm_of_sync c c.openTimeout hsync, hot]

/-- Witness for C7 at the freshly constructed channel, instantiating the
poll-step clause with a failing poll. -/
theorem retry_reset_only_on_open_transition_witness :
    (Channel.init "http://h").timeout
        ≤ ((Channel.init "http://h").gather GatherResult.failure).chan.timeout ∨
      (((Channel.init "http://h").gather GatherResult.failure).chan.timeout = 2000 ∧
        (Channel.init "http://h").readyState ≠ ReadyState.OPEN ∧
        ((Channel.init "http://h").gather GatherResult.failure).chan.readyState
          = ReadyState.OPEN) :=
  (retry_reset_only_on_open_transition (Channel.init "http://h")
    (Channel.Reachable.init "http://h")).2.1 GatherResult.failure

/-- C8: every reachable channel state has exactly one live recurring poll
timer — the one whose handle is stored in `this.interval` — and every
rearm (`clearInterval` + `setInterval`) cancels that timer before arming
the fresh one, so no reachable state has two live poll timers. -/
theorem at_most_one_live_timer (c : Channel) (hreach : c.Reachable) :
    c.liveTimers.length ≤ 1 ∧
    c.liveTimers = [(c.interval, c.timeout)] ∧
    (∀ p : Nat, (c.rearm p).liveTimers = [(c.nextTimer, p)]) := by
  have hsync := (Inv_reachable c hreach).2.2.2.1
  have hl : c.liveTimers = [(c.interval, c.timeout)] := hsync
  refine ⟨?_, hl, fun p => rearm_of_sync c p hsync⟩
  rw [hl]
  exact le_refl 1

/-- Witness for C8 at a reachable state: the fresh channel after one
failing poll. -/
theorem at_most_one_live_timer_witness :
    (((Channel.init "http://h").gather GatherResult.failure).chan.liveTimers.length
      ≤ 1) ∧
    ((((Channel.init "http://h").gather GatherResult.failure).chan.liveTimers)
      = [((((Channel.init "http://h").gather GatherResult.failure).chan.interval),
          (((Channel.init "http://h").gather GatherResult.failure).chan.timeout))]) :=
  ⟨(at_most_one_live_timer ((Channel.init "http://h").gather GatherResult.failure).chan
      (Channel.Reachable.step (Channel.Reachable.init "http://h")
        (Channel.Step.poll (Channel.init "http://h") GatherResult.failure))).1,
   (at_most_one_live_timer ((Channel.init "http://h").gather GatherResult.failure).chan
      (Channel.Reachable.step (Channel.Reachable.init "http://h")
        (Channel.Step.poll (Channel.init "http://h") GatherResult.failure))).2.1⟩

/-- C9: handler sets are consulted at delivery time, not at request-issue
time.  If a handler is removed after a poll request is issued but before
the response is processed, then processing that response — the handlers
fired by the completion itself, and the `"message"` deliveries of the ack
round trips it spawns — never invokes the removed handler for that
kind. -/
theorem unsubscribed_handler_not_invoked (c c' : Channel) (k : String) (hh : Nat)
    (hs : List Nat) (r : GatherResult) (d : Json) (evs : List Event)
    (hk : c.events.lookup k = some hs) (hnd : hs.Nodup)
    (hrm : c.removeEventListener k hh = Except.ok c')
    (hdel : (c'.gather r).chan.deliverPull d = Except.ok evs) :
    ((c'.gather r).fired.filter (fun e => e.kind == k && e.handler == hh)) = [] ∧
    (evs.filter (fun e => e.kind == k && e.handler == hh)) = [] := by
  have hev : c'.events = updateEvents c.events k (hs.erase hh) := by
    rw [Channel.removeEventListener, hk] at hrm
    cases hrm
    rfl
  have hlook : c'.events.lookup k = some (hs.erase hh) := by
    rw [hev]
    exact lookup_updateEvents_self c.events k (hs.erase hh) hs hk
  have hnotin : hh ∉ hs.erase hh := List.Nodup.not_mem_erase hnd
  have hmain : ∀ e : Event, (∃ l, c'.events.lookup e.kind = some l ∧ e.handler ∈ l) →
      (e.kind == k && e.handler == hh) = false := by
    intro e he
    obtain ⟨l, hl, hmem⟩ := he
    by_cases hek : e.kind = k
    · rw [hek] at hl
      have hleq : l = hs.erase hh := by
        rw [hl] at hlook
        cases hlook
        rfl
      subst hleq
      have hne : e.handler ≠ hh := by
        intro heq
        rw [heq] at hmem
        exact hnotin hmem
      have h1 : (e.handler == hh) = false := beq_eq_false_iff_ne.mpr hne
      rw [h1, Bool.and_false]
    · have h1 : (e.kind == k) = false := beq_eq_false_iff_ne.mpr hek
      rw [h1, Bool.false_and]
  constructor
  · rw [List.filter_eq_nil_iff]
    intro e he
    rw [hmain e (gather_fired_registered c' r e he)]
    simp
  · rw [List.filter_eq_nil_iff]
    intro e he
    have hreg := deliverPull_fired_registered (c'.gather r).chan d evs hdel e he
    have hex : ∃ l, c'.events.lookup e.kind = some l ∧ e.handler ∈ l := by
      obtain ⟨l, hl, hm⟩ := hreg.2
      rw [(gather_chan_events c' r).1] at hl
      refine ⟨l, ?_, hm⟩
      rw [hreg.1]
      exact hl
    rw [hmain e hex]
    simp

/-- Witness for C9: remove the only `"message"` handler, then process a
poll response and an ack delivery — the handler is not invoked. -/
theorem unsubscribed_handler_not_invoked_witness :
    (((Channel.init "http://h").addEventListener "message" 5).events.lookup "message"
        = some [5]) ∧
    (((Channel.init "http://h").addEventListener "message" 5).removeEventListener
          "message" 5
        = Except.ok { ((Channel.init "http://h").addEventListener "message" 5) with
            events := updateEvents
              ((Channel.init "http://h").addEventListener "message" 5).events
              "message" ([5].erase 5) }) ∧
    ((({ ((Channel.init "http://h").addEventListener "message" 5) with
          events := updateEvents
            ((Channel.init "http://h").addEventListener "message" 5).events
            "message" ([5].erase 5) } : Channel).gather
        GatherResult.failure).fired.filter
        (fun e => e.kind == "message" && e.handler == 5) = []) :=
  ⟨by decide, rfl,
    (unsubscribed_handler_not_invoked
      ((Channel.init "http://h").addEventListener "message" 5)
      { ((Channel.init "http://h").addEventListener "message" 5) with
          events := updateEvents
            ((Channel.init "http://h").addEventListener "message" 5).events
            "message" ([5].erase 5) }
      "message" 5 [5] GatherResult.failure Json.null []
      (by decide) (by decide) rfl rfl).1⟩

/-- C10: on a channel with no `"open"` entry in its handler table, a poll
whose fetch and parse both succeed while the state is non-`OPEN` is
processed by the failure branch: the `this.events.open.forEach` access
throws inside the success callback, the `.catch` absorbs it, the state
becomes `CLOSED`, the retry interval doubles (capped at 5000), no handler
fires, and no message of the batch is delivered — the channel never
transitions to `OPEN`. -/
theorem missing_open_handler_treated_as_failure (c : Channel) (ms : List Json)
    (hno : c.events.lookup "open" = none) (hne : c.readyState ≠ ReadyState.OPEN) :
    c.gather (GatherResult.success ms) = c.gatherFail ∧
    (c.gather (GatherResult.success ms)).chan.readyState = ReadyState.CLOSED ∧
    (c.gather (GatherResult.success ms)).chan.timeout = min (c.timeout * 2) 5000 ∧
    (c.gather (GatherResult.success ms)).fired = [] ∧
    (c.gather (GatherResult.success ms)).pending = [] ∧
    (c.gather (GatherResult.success ms)).uncaught = false := by
  have hg : c.gather (GatherResult.success ms) = c.gatherFail := by
    rw [Channel.gather, execute_of_nonOpen_noHandler c ms hne hno]
  refine ⟨hg, ?_, ?_, ?_, ?_, ?_⟩
  · rw [hg]; exact (gatherFail_shape c).2.2.1
  · rw [hg]; exact (gatherFail_shape c).2.2.2.1
  · rw [hg]; exact gatherFail_fired_of_nonOpen c hne
  · rw [hg]; exact (gatherFail_shape c).2.2.2.2.1
  · rw [hg]; exact (gatherFail_shape c).2.2.2.2.2

/-- Witness for C10: a fresh channel (no handlers registered) receiving a
well-formed one-message poll response. -/
theorem missing_open_handler_treated_as_failure_witness :
    ((Channel.init "http://h").events.lookup "open" = none) ∧
    ((Channel.init "http://h").readyState ≠ ReadyState.OPEN) ∧
    (((Channel.init "http://h").gather
        (GatherResult.success [Json.null])).chan.readyState = ReadyState.CLOSED) ∧
    (((Channel.init "http://h").gather
        (GatherResult.success [Json.null])).chan.timeout
      = min ((Channel.init "http://h").timeout * 2) 5000) ∧
    (((Channel.init "http://h").gather
        (GatherResult.success [Json.null])).pending = []) :=
  ⟨by decide, by decide,
    (missing_open_handler_treated_as_failure (Channel.init "http://h") [Json.null]
      (by decide) (by decide)).2.1,
    (missing_open_handler_treated_as_failure (Channel.init "http://h") [Json.null]
      (by decide) (by decide)).2.2.1,
    (missing_open_handler_treated_as_failure (Channel.init "http://h") [Json.null]
      (by decide) (by decide)).2.2.2.2.1⟩
